import Mathlib

/-!
A verification development for gempost's template-rendering subsystem
(src/template.rs).

The Rust code is shallowly embedded:
* filesystem paths are lists of components (mirroring std::path::Component);
* path canonicalization is an environment parameter
  (a function from paths to optional canonical paths), since its result
  depends on the state of the real filesystem;
* the Tera template engine is an abstract oracle: loading a template file,
  syntax-checking a raw template string, and rendering a named template
  against a context are opaque functions supplied as a parameter, while the
  set of registered templates is tracked explicitly;
* the output filesystem is an explicit state (existing directories plus an
  association list from paths to file contents); File::create truncates the
  file to empty content, and a streaming render that fails leaves the
  truncated content in place;
* fallible operations return Except / Option.
-/

namespace Gempost

/-- One filesystem path component, mirroring the cases of
std::path::Component that can occur on Unix-style paths. -/
inductive Component where
  | rootDir : Component
  | curDir : Component
  | parentDir : Component
  | normal (name : String) : Component
deriving DecidableEq, Repr

/-- A path is its list of components, as produced by Path::components(). -/
abbrev FilePath := List Component

/-- Path::parent: none for the empty path and for the root path, otherwise
the path with its last component removed. -/
def parentPath : FilePath → Option FilePath
  | [] => none
  | [Component.rootDir] => none
  | p => some p.dropLast

/-- All prefixes of a path, shortest first; used to model the set of
directories brought into existence by fs::create_dir_all. -/
def prefixesOf : FilePath → List FilePath
  | [] => [[]]
  | c :: rest => [] :: (prefixesOf rest).map (fun p => c :: p)

/-- Helper for file_stem: drop the final dot of the character list and
everything after it, when a dot is present. -/
def dropAfterLastDot (cs : List Char) : List Char :=
  if cs.contains '.' then
    (((cs.reverse).dropWhile (fun c => decide (¬ c = '.'))).drop 1).reverse
  else cs

/-- Rust Path::file_stem on a bare file name: none for the empty name;
otherwise the name up to (but excluding) its final dot, except that a dot
in the first position never counts as an extension separator. -/
def file_stem (s : String) : Option String :=
  match s.data with
  | [] => none
  | c :: rest => some (String.mk (c :: dropAfterLastDot rest))

/-- The Component::Normal case of the flat_map in create_breadcrumb. -/
def componentName : Component → Option String
  | Component.normal s => some s
  | _ => none

/-- The tail of create_breadcrumb: replace the last segment, when there is
one, by its file stem. -/
def stripExtLast (breadcrumb : List String) : List String :=
  match breadcrumb.getLast? with
  | none => breadcrumb
  | some filename =>
    match file_stem filename with
    | none => breadcrumb
    | some stem => breadcrumb.dropLast ++ [stem]

/-- create_breadcrumb from template.rs. Canonicalization is the
environment parameter canon; a failed canonicalization degrades to the
empty path (ok().unwrap_or_default()). The canonical base path's component
count is skipped off the canonical file path, Normal components are kept
and stringified, and the last segment loses its extension. -/
def create_breadcrumb (canon : FilePath → Option FilePath)
    (file_path base_path : FilePath) : List String :=
  let base_path := (canon base_path).getD []
  let num_base_components := base_path.length
  let binding := (canon file_path).getD []
  let capsule_components := binding.drop num_base_components
  let breadcrumb := capsule_components.filterMap componentName
  stripExtLast breadcrumb

/-- chrono DateTime with a fixed offset, reduced to the calendar and
clock fields the subsystem reads (year, month, day accessors). -/
structure DateTime where
  year : Int
  month : Nat
  day : Nat
  hour : Nat
  minute : Nat
  second : Nat
  offsetMinutes : Int
deriving DecidableEq, Repr

/-- serde_yaml::Mapping, abstracted to an association list; the subsystem
only passes it through verbatim and never inspects it. -/
abbrev Mapping := List (String × String)

/-- crate::entry::AuthorMetadata as consumed by the projections. -/
structure AuthorMetadata where
  name : String
  email : Option String
  uri : Option String
deriving DecidableEq, Repr

/-- EntryAuthorTemplateData from template.rs. -/
structure EntryAuthorTemplateData where
  name : String
  email : Option String
  uri : Option String
deriving DecidableEq, Repr

/-- The From AuthorMetadata conversion. -/
def EntryAuthorTemplateData.ofAuthorMetadata (value : AuthorMetadata) :
    EntryAuthorTemplateData :=
  { name := value.name, email := value.email, uri := value.uri }

/-- The metadata fields of crate::entry::Entry, mirrored from their use in
the From Entry projection in template.rs (the entry module itself is an
upstream collaborator). Urls are kept in their to_string form. -/
structure EntryMetadata where
  id : String
  title : String
  updated : DateTime
  summary : Option String
  published : Option DateTime
  author : Option AuthorMetadata
  rights : Option String
  lang : Option String
  categories : List String
  layout : Option String
  values : Mapping
deriving DecidableEq, Repr

/-- crate::entry::Entry as consumed by the projection. -/
structure Entry where
  url : String
  metadata : EntryMetadata
  body : String
deriving DecidableEq, Repr

/-- crate::page_entry::PageEntry as consumed by the projection; a distinct
type with the same consumed fields. -/
structure PageEntry where
  url : String
  metadata : EntryMetadata
  body : String
deriving DecidableEq, Repr

/-- EntryTemplateData from template.rs. -/
structure EntryTemplateData where
  id : String
  url : String
  title : String
  body : String
  updated : DateTime
  summary : Option String
  published : Option DateTime
  publish_year : Option Int
  author : Option EntryAuthorTemplateData
  rights : Option String
  lang : Option String
  categories : List String
  layout : Option String
  values : Mapping
deriving DecidableEq, Repr

/-- The From Entry projection into EntryTemplateData. -/
def EntryTemplateData.ofEntry (params : Entry) : EntryTemplateData :=
  let published := params.metadata.published
  { id := params.metadata.id
    url := params.url
    title := params.metadata.title
    body := params.body
    updated := params.metadata.updated
    summary := params.metadata.summary
    published := published
    publish_year := published.map (fun d => d.year)
    author := params.metadata.author.map EntryAuthorTemplateData.ofAuthorMetadata
    rights := params.metadata.rights
    lang := params.metadata.lang
    categories := params.metadata.categories
    layout := params.metadata.layout
    values := params.metadata.values }

/-- The From PageEntry projection into EntryTemplateData. -/
def EntryTemplateData.ofPageEntry (params : PageEntry) : EntryTemplateData :=
  let published := params.metadata.published
  { id := params.metadata.id
    url := params.url
    title := params.metadata.title
    body := params.body
    updated := params.metadata.updated
    summary := params.metadata.summary
    published := published
    publish_year := published.map (fun d => d.year)
    author := params.metadata.author.map EntryAuthorTemplateData.ofAuthorMetadata
    rights := params.metadata.rights
    lang := params.metadata.lang
    categories := params.metadata.categories
    layout := params.metadata.layout
    values := params.metadata.values }

/-- FeedAuthorTemplateData from template.rs. -/
structure FeedAuthorTemplateData where
  name : String
  email : Option String
  uri : Option String
deriving DecidableEq, Repr

/-- FeedTemplateData from template.rs. -/
structure FeedTemplateData where
  capsule_url : String
  feed_url : String
  index_url : String
  title : String
  updated : String
  subtitle : Option String
  rights : Option String
  author : Option FeedAuthorTemplateData
  entries : List EntryTemplateData
deriving DecidableEq, Repr

/-- PagesTemplateData from template.rs. -/
structure PagesTemplateData where
  capsule_url : String
  index_url : String
  pages_dir : FilePath
  feed_data : FeedTemplateData

/-- Rust format padding with fill character fill, right-aligned to a
minimum width (the format spec 0-greater-than-width used in template.rs). -/
def padStart (width : Nat) (fill : Char) (s : String) : String :=
  String.mk (List.replicate (width - s.length) fill) ++ s

/-- PostPathParams from template.rs. -/
structure PostPathParams where
  slug : String
  published : Option DateTime
deriving DecidableEq, Repr

/-- PostPathTemplateData from template.rs. -/
structure PostPathTemplateData where
  year : String
  month : String
  day : String
  slug : String
deriving DecidableEq, Repr

/-- The From PostPathParams conversion: each date field is formatted
zero-padded (year to width 4, month and day to width 2), or defaults to
the empty string when there is no publish date. -/
def PostPathTemplateData.ofParams (params : PostPathParams) :
    PostPathTemplateData :=
  { year := (params.published.map
      (fun published => padStart 4 '0' (toString published.year))).getD ""
    month := (params.published.map
      (fun published => padStart 2 '0' (toString published.month))).getD ""
    day := (params.published.map
      (fun published => padStart 2 '0' (toString published.day))).getD ""
    slug := params.slug }

/-- PagePathParams from template.rs. -/
structure PagePathParams where
  base_path : FilePath
  file_path : FilePath
  slug : String

/-- PagePathTemplateData from template.rs. -/
structure PagePathTemplateData where
  parent_url : String
  slug : String
deriving DecidableEq, Repr

/-- The From PagePathParams conversion: the breadcrumb of the file path
relative to the base path, with its final segment popped, joined by a
slash separator. -/
def PagePathTemplateData.ofParams (canon : FilePath → Option FilePath)
    (params : PagePathParams) : PagePathTemplateData :=
  let breadcrumb :=
    (create_breadcrumb canon params.file_path params.base_path).dropLast
  { parent_url := String.intercalate "/" breadcrumb
    slug := params.slug }

/-- tera::Error: a message together with an optional source error, i.e. a
nonempty chain of cause messages. -/
inductive RError where
  | leaf (msg : String) : RError
  | chain (msg : String) (source : RError) : RError
deriving DecidableEq, Repr

/-- The Display rendering of a tera::Error (err.to_string()): the
top-level message only, without its sources. -/
def RError.display : RError → String
  | RError.leaf msg => msg
  | RError.chain msg _ => msg

/-- The cause-chain walk of to_error: the error's own message followed by
the messages of every source, walked to exhaustion. -/
def chainMessages : RError → List String
  | RError.leaf msg => [msg]
  | RError.chain msg source => msg :: chainMessages source

/-- crate::error::Error, restricted to the variants template.rs raises. -/
inductive GempostError where
  | invalidPageTemplate (path : FilePath) (reason : String) : GempostError
  | invalidPostPageTemplate (path : FilePath) (reason : String) : GempostError
  | invalidIndexPageTemplate (reason : String) : GempostError
  | invalidPostPath (template : String) (reason : String) : GempostError
deriving DecidableEq, Repr

/-- An eyre error: either a named GempostError raised by bail, or a plain
context message attached by wrap_err / eyre. -/
inductive RenderErr where
  | gempost (e : GempostError) : RenderErr
  | wrapped (msg : String) : RenderErr
deriving DecidableEq, Repr

/-- to_error from template.rs: flatten the full cause chain of a
tera::Error, joined by the separator, prefix the entry URL, and wrap it in
the invalid-page-template error carrying the output path. -/
def to_error (output : FilePath) (url : String) (err : RError) : RenderErr :=
  RenderErr.gempost (GempostError.invalidPageTemplate output
    (url ++ ": " ++ String.intercalate " - " (chainMessages err)))

/-- A value stored in a tera Context under a string key. -/
inductive Value where
  | str (s : String) : Value
  | strList (l : List String) : Value
  | entryVal (e : EntryTemplateData) : Value
  | feedVal (f : FeedTemplateData) : Value
  | mappingVal (m : Mapping) : Value
deriving DecidableEq

/-- First-match lookup in an association list of context values. -/
def lookupVal : List (String × Value) → String → Option Value
  | [], _ => none
  | (k, v) :: rest, key => if k = key then some v else lookupVal rest key

/-- A tera Context. Insertion prepends and lookup takes the first match,
which is observationally the map-replace semantics of Context::insert. -/
structure Ctx where
  entries : List (String × Value)
deriving DecidableEq

/-- The empty Context (Context::new). -/
def Ctx.empty : Ctx := ⟨[]⟩

/-- Context::insert. -/
def Ctx.insert (c : Ctx) (k : String) (v : Value) : Ctx :=
  ⟨(k, v) :: c.entries⟩

/-- Context lookup, for observing what a key holds. -/
def Ctx.get (c : Ctx) (k : String) : Option Value :=
  lookupVal c.entries k

/-- The Tera engine as an abstract oracle: reading and parsing a template
file yields its source text or a tera::Error; syntax-checking a raw
template string yields an optional tera::Error; rendering a named template
against the currently registered templates and a context yields the output
text or a tera::Error. The registered-template set is threaded explicitly
by the renderers. -/
structure TemplateEngine where
  loadFile : FilePath → Except RError String
  checkRaw : String → Option RError
  render : List (String × String) → String → Ctx → Except RError String

/-- Path::file_stem on a full path: the stem of the final component when
that component is a Normal name, none otherwise. -/
def path_file_stem (p : FilePath) : Option String :=
  match p.getLast? with
  | some (Component.normal s) => file_stem s
  | _ => none

/-- create_named_template from template.rs: pair each template path with
its optional file stem, the logical template name. -/
def create_named_template (p : FilePath) : FilePath × Option String :=
  (p, path_file_stem p)

/-- A crude Display rendering of a path, used only as Tera's fallback
template name when a file stem is unavailable. -/
def pathToString (p : FilePath) : String :=
  String.intercalate "/" (p.map (fun c =>
    match c with
    | Component.rootDir => ""
    | Component.curDir => "."
    | Component.parentDir => ".."
    | Component.normal s => s))

/-- Tera::add_template_files: load each file in order, registering it
under its given name (or its path when the name is absent); stop at the
first load failure, returning the templates registered so far and the
error if any. -/
def add_template_files (eng : TemplateEngine) :
    List (String × String) → List (FilePath × Option String) →
    List (String × String) × Option RError
  | tera, [] => (tera, none)
  | tera, (p, name) :: rest =>
    match eng.loadFile p with
    | Except.error e => (tera, some e)
    | Except.ok src =>
      add_template_files eng (tera ++ [(name.getD (pathToString p), src)]) rest

/-- The output filesystem: the set of existing directories and an
association list from file paths to contents (first match wins). -/
structure FS where
  dirs : List FilePath
  files : List (FilePath × String)
deriving DecidableEq

/-- Whether a directory exists: the empty (current) directory and the
root always do. -/
def dirExists (fs : FS) (d : FilePath) : Bool :=
  decide (d = [] ∨ d = [Component.rootDir] ∨ d ∈ fs.dirs)

/-- fs::create_dir_all: bring the directory and every ancestor into
existence; idempotent and infallible. -/
def createDirAll (fs : FS) (d : FilePath) : FS :=
  ⟨prefixesOf d ++ fs.dirs, fs.files⟩

/-- File::create: requires a parent directory that exists, and truncates
the file to empty content. -/
def fileCreate (fs : FS) (p : FilePath) : Except String FS :=
  match parentPath p with
  | none => Except.error "invalid path"
  | some d =>
    if dirExists fs d then
      Except.ok ⟨fs.dirs, (p, "") :: fs.files⟩
    else Except.error "no such directory"

/-- Overwrite a file's content (a completed streaming render). -/
def fsWrite (fs : FS) (p : FilePath) (s : String) : FS :=
  ⟨fs.dirs, (p, s) :: fs.files⟩

/-- First-match lookup among the files. -/
def lookupFile : List (FilePath × String) → FilePath → Option String
  | [], _ => none
  | (q, s) :: rest, p => if q = p then some s else lookupFile rest p

/-- Read a file's content, if the file exists. -/
def getFile (fs : FS) (p : FilePath) : Option String :=
  lookupFile fs.files p

/-- EntryTemplateData::render_post from template.rs: load the single post
template, build the entry/feed context, create the destination file, and
render into it. No parent directory is created. -/
def render_post (eng : TemplateEngine) (entry : EntryTemplateData)
    (feed : FeedTemplateData) (template : FilePath) (output : FilePath)
    (fs : FS) : Except RenderErr Unit × FS :=
  match eng.loadFile template with
  | Except.error err =>
    (Except.error (RenderErr.gempost
      (GempostError.invalidPostPageTemplate output err.display)), fs)
  | Except.ok src =>
    let tera := [("post", src)]
    let context :=
      (Ctx.empty.insert "entry" (Value.entryVal entry)).insert
        "feed" (Value.feedVal feed)
    match fileCreate fs output with
    | Except.error _ =>
      (Except.error (RenderErr.wrapped "failed creating gemlog post page file"),
        fs)
    | Except.ok fs1 =>
      match eng.render tera "post" context with
      | Except.error err =>
        (Except.error (RenderErr.gempost
          (GempostError.invalidPostPageTemplate output err.display)), fs1)
      | Except.ok rendered => (Except.ok (), fsWrite fs1 output rendered)

/-- The first-pass page render context from render_page:
entry, values, breadcrumb, feed. -/
def page_context (entry : EntryTemplateData) (pages_data : PagesTemplateData)
    (breadcrumb : List String) : Ctx :=
  (((Ctx.empty.insert "entry" (Value.entryVal entry)).insert
    "values" (Value.mappingVal entry.values)).insert
    "breadcrumb" (Value.strList breadcrumb)).insert
    "feed" (Value.feedVal pages_data.feed_data)

/-- The outcome of render_page: the result, the final filesystem, the
templates registered with the engine, and the final value of the mutable
self parameter. -/
structure RenderOutcome where
  result : Except RenderErr Unit
  fs : FS
  tera : List (String × String)
  entry : EntryTemplateData

/-- EntryTemplateData::render_page from template.rs: reject a reserved
"page" stem among the template files, register the template files, then
the entry body as raw template "page"; create the parent directory and the
destination file; compute the breadcrumb; first pass renders "page"
against the entry/values/breadcrumb/feed context; the output is inserted
under "content" and the layout named by entry.layout (default "base") is
rendered to the destination file. Render failures go through to_error. -/
def render_page (eng : TemplateEngine) (canon : FilePath → Option FilePath)
    (entry : EntryTemplateData) (pages_data : PagesTemplateData)
    (templates : List FilePath) (output : FilePath) (fs : FS) :
    RenderOutcome :=
  let named := templates.map create_named_template
  match named.find? (fun pr => decide (pr.2.getD "" = "page")) with
  | some _ =>
    ⟨Except.error (RenderErr.gempost (GempostError.invalidPageTemplate output
      "page template directory must NOT contain a page.tera file")),
      fs, [], entry⟩
  | none =>
    match add_template_files eng [] named with
    | (tera1, some err) =>
      ⟨Except.error (RenderErr.gempost
        (GempostError.invalidPageTemplate output err.display)),
        fs, tera1, entry⟩
    | (tera1, none) =>
      match eng.checkRaw entry.body with
      | some err =>
        ⟨Except.error (RenderErr.gempost (GempostError.invalidPageTemplate
          output (entry.url ++ ": " ++ err.display))), fs, tera1, entry⟩
      | none =>
        let tera2 := tera1 ++ [("page", entry.body)]
        match parentPath output with
        | none =>
          ⟨Except.error (RenderErr.wrapped
            "Could not get parent directory of templated page file. This is a bug."),
            fs, tera2, entry⟩
        | some parent_dir =>
          let fs1 := createDirAll fs parent_dir
          match fileCreate fs1 output with
          | Except.error _ =>
            ⟨Except.error (RenderErr.wrapped
              "failed creating gemlog templated page file"), fs1, tera2, entry⟩
          | Except.ok fs2 =>
            let breadcrumb := create_breadcrumb canon output pages_data.pages_dir
            let context := page_context entry pages_data breadcrumb
            match eng.render tera2 "page" context with
            | Except.error err =>
              ⟨Except.error (to_error output entry.url err), fs2, tera2, entry⟩
            | Except.ok pre_rendered =>
              let context2 := context.insert "content" (Value.str pre_rendered)
              let layout_template := entry.layout.getD "base"
              match eng.render tera2 layout_template context2 with
              | Except.error err =>
                ⟨Except.error (to_error output entry.url err), fs2, tera2, entry⟩
              | Except.ok rendered =>
                ⟨Except.ok (), fsWrite fs2 output rendered, tera2, entry⟩

/-- FeedTemplateData::render_index from template.rs. -/
def render_index (eng : TemplateEngine) (feed : FeedTemplateData)
    (template : FilePath) (output : FilePath) (fs : FS) :
    Except RenderErr Unit × FS :=
  match eng.loadFile template with
  | Except.error err =>
    (Except.error (RenderErr.gempost
      (GempostError.invalidIndexPageTemplate err.display)), fs)
  | Except.ok src =>
    let tera := [("index", src)]
    let context := Ctx.empty.insert "feed" (Value.feedVal feed)
    match parentPath output with
    | none =>
      (Except.error (RenderErr.wrapped
        "Could not get parent directory of index page file. This is a bug."), fs)
    | some parent_dir =>
      let fs1 := createDirAll fs parent_dir
      match fileCreate fs1 output with
      | Except.error _ =>
        (Except.error (RenderErr.wrapped
          "failed creating gemlog index page file"), fs1)
      | Except.ok fs2 =>
        match eng.render tera "index" context with
        | Except.error err =>
          (Except.error (RenderErr.gempost
            (GempostError.invalidIndexPageTemplate err.display)), fs2)
        | Except.ok rendered => (Except.ok (), fsWrite fs2 output rendered)

/-- FeedTemplateData::render_feed from template.rs: the template is the
bundled raw string; its failures are internal-bug errors. -/
def render_feed (eng : TemplateEngine) (feed : FeedTemplateData)
    (template : String) (output : FilePath) (fs : FS) :
    Except RenderErr Unit × FS :=
  match eng.checkRaw template with
  | some _ =>
    (Except.error (RenderErr.wrapped
      "The bundled Atom feed template is invalid. This is a bug."), fs)
  | none =>
    let tera := [("feed", template)]
    let context := Ctx.empty.insert "feed" (Value.feedVal feed)
    match parentPath output with
    | none =>
      (Except.error (RenderErr.wrapped
        "Could not get parent directory of Atom feed file. This is a bug."), fs)
    | some parent_dir =>
      let fs1 := createDirAll fs parent_dir
      match fileCreate fs1 output with
      | Except.error _ =>
        (Except.error (RenderErr.wrapped
          "failed creating gemlog Atom feed file"), fs1)
      | Except.ok fs2 =>
        match eng.render tera "feed" context with
        | Except.error _ =>
          (Except.error (RenderErr.wrapped "failed generating the Atom feed"),
            fs2)
        | Except.ok rendered => (Except.ok (), fsWrite fs2 output rendered)

/-! Concrete fixtures used to instantiate the theorems below. -/

/-- A concrete timestamp. -/
def demoDate : DateTime := ⟨2024, 3, 7, 0, 0, 0, 0⟩

/-- A concrete projected entry with body "BODY" and no layout. -/
def demoEntry : EntryTemplateData :=
  { id := "post-1"
    url := "gemini://example.org/p.gmi"
    title := "Title"
    body := "BODY"
    updated := demoDate
    summary := none
    published := none
    publish_year := none
    author := none
    rights := none
    lang := none
    categories := []
    layout := none
    values := [] }

/-- A concrete feed. -/
def demoFeed : FeedTemplateData :=
  { capsule_url := "gemini://example.org"
    feed_url := "gemini://example.org/atom.xml"
    index_url := "gemini://example.org/index.gmi"
    title := "Feed"
    updated := "2024-03-07T00:00:00+00:00"
    subtitle := none
    rights := none
    author := none
    entries := [] }

/-- Concrete pages data. -/
def demoPages : PagesTemplateData :=
  { capsule_url := "gemini://example.org"
    index_url := "gemini://example.org/index.gmi"
    pages_dir := [Component.rootDir, Component.normal "srv", Component.normal "pages"]
    feed_data := demoFeed }

/-- An engine that loads every file, accepts every raw template, renders
the "page" template to "PRE" and everything else to "OUT". -/
def demoEngine : TemplateEngine :=
  { loadFile := fun _ => Except.ok "LAYOUT"
    checkRaw := fun _ => none
    render := fun _ name _ =>
      if name = "page" then Except.ok "PRE" else Except.ok "OUT" }

/-- An engine whose every operation succeeds with fixed outputs. -/
def alwaysOkEngine : TemplateEngine :=
  { loadFile := fun _ => Except.ok "SRC"
    checkRaw := fun _ => none
    render := fun _ _ _ => Except.ok "OUT" }

/-- A two-level tera error: message "outer" caused by message "inner". -/
def chainedErr : RError := RError.chain "outer" (RError.leaf "inner")

/-- An engine that loads and parses everything but fails every render
with the chained error. -/
def chainFailEngine : TemplateEngine :=
  { loadFile := fun _ => Except.ok "SRC"
    checkRaw := fun _ => none
    render := fun _ _ _ => Except.error chainedErr }

/-- An output path whose parent is a non-root directory. -/
def demoOutput : FilePath :=
  [Component.rootDir, Component.normal "cap", Component.normal "about.gmi"]

/-- An output path under a directory that does not exist yet. -/
def deepOutput : FilePath :=
  [Component.rootDir, Component.normal "gemlog", Component.normal "post.gmi"]

/-- An output path directly under the root (whose parent always exists). -/
def shallowOutput : FilePath := [Component.rootDir, Component.normal "post.gmi"]

/-- The empty filesystem: no directories, no files. -/
def demoFS : FS := ⟨[], []⟩

/-- A filesystem holding pre-existing content at the shallow output path. -/
def fsWithOld : FS := ⟨[], [(shallowOutput, "OLD")]⟩

/-- A template file whose stem is "base". -/
def baseTeraPath : FilePath := [Component.normal "base.tera"]

/-- A template file whose stem is the reserved name "page". -/
def pageTeraPath : FilePath := [Component.normal "page.tera"]

/-- A template file whose stem is "post". -/
def postTeraPath : FilePath := [Component.normal "post.tera"]

/-- A canonicalizer that resolves only the path named "file"; every other
path, in particular the one named "base", fails to canonicalize. -/
def cexCanon : FilePath → Option FilePath := fun p =>
  if p = [Component.normal "file"] then
    some [Component.rootDir, Component.normal "a", Component.normal "b.txt"]
  else none

/-- A canonicalizer under which "f" is a descendant of "b". -/
def canonW : FilePath → Option FilePath := fun p =>
  if p = [Component.normal "b"] then
    some [Component.rootDir, Component.normal "srv"]
  else if p = [Component.normal "f"] then
    some [Component.rootDir, Component.normal "srv",
      Component.normal "docs", Component.normal "about.gmi"]
  else none

/-! Helper lemmas shared by the claim theorems. -/

lemma self_mem_prefixesOf (d : FilePath) : d ∈ prefixesOf d := by
  induction d with
  | nil => simp [prefixesOf]
  | cons c rest ih =>
    exact List.mem_cons_of_mem _ (List.mem_map_of_mem _ ih)

lemma dirExists_createDirAll (fs : FS) (d : FilePath) :
    dirExists (createDirAll fs d) d = true := by
  simp only [dirExists, createDirAll, decide_eq_true_eq]
  exact Or.inr (Or.inr (List.mem_append_left _ (self_mem_prefixesOf d)))

lemma fileCreate_createDirAll (fs : FS) (p d : FilePath)
    (h : parentPath p = some d) :
    fileCreate (createDirAll fs d) p =
      Except.ok ⟨(createDirAll fs d).dirs, (p, "") :: fs.files⟩ := by
  simp only [fileCreate, h, dirExists_createDirAll, if_true]
  rfl

lemma filterMap_componentName_map_normal (l : List String) :
    (l.map Component.normal).filterMap componentName = l := by
  induction l with
  | nil => rfl
  | cons a t ih => simp [componentName, ih]

lemma string_mk_cons_ne_empty (c : Char) (cs : List Char) :
    ¬ String.mk (c :: cs) = "" := by
  intro h
  have h2 : c :: cs = ([] : List Char) := congrArg String.data h
  exact List.cons_ne_nil _ _ h2

lemma stripExtLast_concat (l : List String) (a stem : String)
    (h : file_stem a = some stem) :
    stripExtLast (l ++ [a]) = l ++ [stem] := by
  simp [stripExtLast, List.getLast?_concat, h, List.dropLast_concat]

lemma find?_none_of_no_page (templates : List FilePath)
    (h : ∀ t ∈ templates, ¬ (path_file_stem t).getD "" = "page") :
    (templates.map create_named_template).find?
      (fun pr => decide (pr.2.getD "" = "page")) = none := by
  apply List.find?_eq_none.mpr
  intro pr hpr
  rcases List.mem_map.mp hpr with ⟨t, ht, rfl⟩
  simpa [create_named_template] using h t ht

lemma add_template_files_no_error (eng : TemplateEngine) (src : String)
    (h : ∀ p, eng.loadFile p = Except.ok src) :
    ∀ (l : List (FilePath × Option String)) (tera : List (String × String)),
      (add_template_files eng tera l).2 = none := by
  intro l
  induction l with
  | nil => intro tera; rfl
  | cons pr rest ih =>
    intro tera
    rcases pr with ⟨p, name⟩
    simp only [add_template_files, h p]
    exact ih _

/-- C7: For every Entry and every PageEntry, the projected
EntryTemplateData has publish_year equal to the calendar year of published
whenever published is present, and publish_year absent whenever published
is absent; published itself is carried over from the metadata, so
publish_year is never inconsistent with it. -/
theorem publish_year_consistent :
    (∀ e : Entry,
      (EntryTemplateData.ofEntry e).publish_year =
        (EntryTemplateData.ofEntry e).published.map DateTime.year ∧
      (EntryTemplateData.ofEntry e).published = e.metadata.published) ∧
    (∀ p : PageEntry,
      (EntryTemplateData.ofPageEntry p).publish_year =
        (EntryTemplateData.ofPageEntry p).published.map DateTime.year ∧
      (EntryTemplateData.ofPageEntry p).published = p.metadata.published) :=
  ⟨fun _ => ⟨rfl, rfl⟩, fun _ => ⟨rfl, rfl⟩⟩

/-- C8: For every PostPathParams, the constructed PostPathTemplateData has
year, month, day as the publish date's fields formatted zero-padded to
minimum widths 4, 2, 2 when published is present, and all three equal to
the empty string together when published is absent, with slug carried over
unchanged in both cases. -/
theorem post_path_data_fields :
    ∀ (slug : String) (d : DateTime),
      PostPathTemplateData.ofParams ⟨slug, some d⟩ =
        ⟨padStart 4 '0' (toString d.year), padStart 2 '0' (toString d.month),
          padStart 2 '0' (toString d.day), slug⟩ ∧
      PostPathTemplateData.ofParams ⟨slug, none⟩ = ⟨"", "", "", slug⟩ :=
  fun _ _ => ⟨rfl, rfl⟩

/-- C3: If any listed template file's stem is the reserved name "page",
render_page fails with the invalid-page-template error carrying the output
path, regardless of the other files present; no template is registered
with the engine and the filesystem is untouched. -/
theorem render_page_rejects_reserved_stem
    (eng : TemplateEngine) (canon : FilePath → Option FilePath)
    (entry : EntryTemplateData) (pages_data : PagesTemplateData)
    (templates : List FilePath) (output : FilePath) (fs : FS) (t : FilePath)
    (ht : t ∈ templates) (hstem : (path_file_stem t).getD "" = "page") :
    render_page eng canon entry pages_data templates output fs =
      ⟨Except.error (RenderErr.gempost (GempostError.invalidPageTemplate output
        "page template directory must NOT contain a page.tera file")),
        fs, [], entry⟩ := by
  have hmem : create_named_template t ∈ templates.map create_named_template :=
    List.mem_map_of_mem _ ht
  rcases hfind : (templates.map create_named_template).find?
      (fun pr => decide (pr.2.getD "" = "page")) with _ | found
  · exfalso
    have hnp := List.find?_eq_none.mp hfind _ hmem
    simp [create_named_template, hstem] at hnp
  · simp [render_page, hfind]

/-- C3 witness: a template set holding base.tera and page.tera is
rejected with the reserved-name error, registering nothing. -/
theorem render_page_rejects_reserved_stem_witness :
    (pageTeraPath ∈ [baseTeraPath, pageTeraPath] ∧
      (path_file_stem pageTeraPath).getD "" = "page") ∧
    render_page demoEngine (fun _ => none) demoEntry demoPages
        [baseTeraPath, pageTeraPath] demoOutput demoFS =
      ⟨Except.error (RenderErr.gempost (GempostError.invalidPageTemplate
        demoOutput "page template directory must NOT contain a page.tera file")),
        demoFS, [], demoEntry⟩ :=
  ⟨⟨by decide, by decide⟩,
    render_page_rejects_reserved_stem demoEngine (fun _ => none) demoEntry
      demoPages [baseTeraPath, pageTeraPath] demoOutput demoFS pageTeraPath
      (by decide) (by decide)⟩

/-- C6 counterexample: when only the base path fails to canonicalize but
the file path resolves, create_breadcrumb returns the full component list
of the canonical file path, not the empty breadcrumb the claim asserts. -/
theorem create_breadcrumb_base_failure_cex :
    cexCanon [Component.normal "base"] = none ∧
    create_breadcrumb cexCanon [Component.normal "file"]
      [Component.normal "base"] = ["a", "b"] ∧
    ¬ (["a", "b"] = ([] : List String)) :=
  ⟨rfl, by decide, by decide⟩

/-- C6 amended: create_breadcrumb never fails; if the file path fails to
canonicalize the breadcrumb is empty, while if only the base path fails it
is treated as empty and the breadcrumb is the stem-stripped list of all
named components of the canonical file path. -/
theorem create_breadcrumb_degrades
    (canon : FilePath → Option FilePath) (file_path base_path f : FilePath) :
    (canon file_path = none →
      create_breadcrumb canon file_path base_path = []) ∧
    (canon base_path = none → canon file_path = some f →
      create_breadcrumb canon file_path base_path =
        stripExtLast (f.filterMap componentName)) := by
  constructor
  · intro h
    simp [create_breadcrumb, h, stripExtLast]
  · intro hb hf
    simp [create_breadcrumb, hb, hf]

/-- C6 amended witness: on concrete paths, a failing file path yields the
empty breadcrumb and a failing base path yields the full stem-stripped
component list of the canonical file path. -/
theorem create_breadcrumb_degrades_witness :
    (cexCanon [Component.normal "missing"] = none ∧
      create_breadcrumb cexCanon [Component.normal "missing"]
        [Component.normal "base"] = []) ∧
    (cexCanon [Component.normal "base"] = none ∧
      cexCanon [Component.normal "file"] =
        some [Component.rootDir, Component.normal "a", Component.normal "b.txt"] ∧
      create_breadcrumb cexCanon [Component.normal "file"]
          [Component.normal "base"] =
        stripExtLast ([Component.rootDir, Component.normal "a",
          Component.normal "b.txt"].filterMap componentName)) :=
  ⟨⟨rfl,
    (create_breadcrumb_degrades cexCanon [Component.normal "missing"]
      [Component.normal "base"] []).1 rfl⟩,
   ⟨rfl, rfl,
    (create_breadcrumb_degrades cexCanon [Component.normal "file"]
      [Component.normal "base"]
      [Component.rootDir, Component.normal "a", Component.normal "b.txt"]).2
      rfl rfl⟩⟩

/-- C1: For every page render that succeeds, the destination file's final
content is the result of rendering the layout template named by
entry.layout (default "base") with the context in which "content" holds
the freshly computed first-pass render of the entry body (registered as
raw template "page") against the entry/values/breadcrumb/feed context:
composition is strictly two-pass. -/
theorem render_page_two_pass
    (eng : TemplateEngine) (canon : FilePath → Option FilePath)
    (entry : EntryTemplateData) (pages_data : PagesTemplateData)
    (templates : List FilePath) (output : FilePath) (fs : FS)
    (h : (render_page eng canon entry pages_data templates output fs).result =
      Except.ok ()) :
    ∃ pre rendered,
      ("page", entry.body) ∈
        (render_page eng canon entry pages_data templates output fs).tera ∧
      eng.render
        (render_page eng canon entry pages_data templates output fs).tera
        "page" (page_context entry pages_data
          (create_breadcrumb canon output pages_data.pages_dir)) =
        Except.ok pre ∧
      ((page_context entry pages_data
          (create_breadcrumb canon output pages_data.pages_dir)).insert
        "content" (Value.str pre)).get "content" = some (Value.str pre) ∧
      eng.render
        (render_page eng canon entry pages_data templates output fs).tera
        (entry.layout.getD "base")
        ((page_context entry pages_data
          (create_breadcrumb canon output pages_data.pages_dir)).insert
          "content" (Value.str pre)) = Except.ok rendered ∧
      getFile (render_page eng canon entry pages_data templates output fs).fs
        output = some rendered := by
  rcases hfind : (templates.map create_named_template).find?
      (fun pr => decide (pr.2.getD "" = "page")) with _ | found
  · rcases hadd : add_template_files eng [] (templates.map create_named_template)
        with ⟨tera1, err?⟩
    rcases err? with _ | err
    · rcases hraw : eng.checkRaw entry.body with _ | err
      · rcases hpar : parentPath output with _ | parent_dir
        · simp [render_page, hfind, hadd, hraw, hpar] at h
        · rcases hfc : fileCreate (createDirAll fs parent_dir) output with e | fs2
          · simp [render_page, hfind, hadd, hraw, hpar, hfc] at h
          · rcases hr1 : eng.render (tera1 ++ [("page", entry.body)]) "page"
                (page_context entry pages_data
                  (create_breadcrumb canon output pages_data.pages_dir))
                with err | pre
            · simp [render_page, hfind, hadd, hraw, hpar, hfc, hr1] at h
            · rcases hr2 : eng.render (tera1 ++ [("page", entry.body)])
                  (entry.layout.getD "base")
                  ((page_context entry pages_data
                    (create_breadcrumb canon output pages_data.pages_dir)).insert
                    "content" (Value.str pre)) with err | rendered
              · simp [render_page, hfind, hadd, hraw, hpar, hfc, hr1, hr2] at h
              · have htera :
                    (render_page eng canon entry pages_data templates output
                      fs).tera = tera1 ++ [("page", entry.body)] := by
                  simp [render_page, hfind, hadd, hraw, hpar, hfc, hr1, hr2]
                have hfs :
                    (render_page eng canon entry pages_data templates output
                      fs).fs = fsWrite fs2 output rendered := by
                  simp [render_page, hfind, hadd, hraw, hpar, hfc, hr1, hr2]
                refine ⟨pre, rendered, ?_, ?_, ?_, ?_, ?_⟩
                · rw [htera]
                  exact List.mem_append_right _ (by simp)
                · rw [htera]
                  exact hr1
                · simp [Ctx.insert, Ctx.get, lookupVal]
                · rw [htera]
                  exact hr2
                · rw [hfs]
                  simp [getFile, fsWrite, lookupFile]
      · simp [render_page, hfind, hadd, hraw] at h
    · simp [render_page, hfind, hadd] at h
  · simp [render_page, hfind] at h

/-- C1 witness: a concrete successful page render, with first pass "PRE"
and final content the layout render "OUT". -/
theorem render_page_two_pass_witness :
    (render_page demoEngine (fun _ => none) demoEntry demoPages [baseTeraPath]
      demoOutput demoFS).result = Except.ok () ∧
    (∃ pre rendered,
      ("page", demoEntry.body) ∈
        (render_page demoEngine (fun _ => none) demoEntry demoPages
          [baseTeraPath] demoOutput demoFS).tera ∧
      demoEngine.render
        (render_page demoEngine (fun _ => none) demoEntry demoPages
          [baseTeraPath] demoOutput demoFS).tera
        "page" (page_context demoEntry demoPages
          (create_breadcrumb (fun _ => none) demoOutput demoPages.pages_dir)) =
        Except.ok pre ∧
      ((page_context demoEntry demoPages
          (create_breadcrumb (fun _ => none) demoOutput
            demoPages.pages_dir)).insert
        "content" (Value.str pre)).get "content" = some (Value.str pre) ∧
      demoEngine.render
        (render_page demoEngine (fun _ => none) demoEntry demoPages
          [baseTeraPath] demoOutput demoFS).tera
        (demoEntry.layout.getD "base")
        ((page_context demoEntry demoPages
          (create_breadcrumb (fun _ => none) demoOutput
            demoPages.pages_dir)).insert
          "content" (Value.str pre)) = Except.ok rendered ∧
      getFile (render_page demoEngine (fun _ => none) demoEntry demoPages
        [baseTeraPath] demoOutput demoFS).fs demoOutput = some rendered) :=
  ⟨rfl, render_page_two_pass demoEngine (fun _ => none) demoEntry demoPages
    [baseTeraPath] demoOutput demoFS rfl⟩

/-- C2: For every base/file pair that both canonicalize, with the
canonical file path a strict descendant of the canonical base path through
named nonempty components, create_breadcrumb returns exactly those named
components in order with the extension stripped from the final segment
only, no segment empty; and the page-path construction drops the final
segment and joins the rest with "/" into parent_url. -/
theorem create_breadcrumb_descendant
    (canon : FilePath → Option FilePath) (file_path base_path cb : FilePath)
    (init : List String) (lastSeg : String)
    (hb : canon base_path = some cb)
    (hf : canon file_path =
      some (cb ++ (init ++ [lastSeg]).map Component.normal))
    (hne : ∀ s ∈ init ++ [lastSeg], ¬ s = "") :
    ∃ stem, file_stem lastSeg = some stem ∧ ¬ stem = "" ∧
      create_breadcrumb canon file_path base_path = init ++ [stem] ∧
      (∀ s ∈ create_breadcrumb canon file_path base_path, ¬ s = "") ∧
      (∀ slug, PagePathTemplateData.ofParams canon
          ⟨base_path, file_path, slug⟩ =
        ⟨String.intercalate "/" init, slug⟩) := by
  have hlast : ¬ lastSeg = "" := hne lastSeg (by simp)
  obtain ⟨c, cs, hdata⟩ : ∃ c cs, lastSeg.data = c :: cs := by
    rcases hd : lastSeg.data with _ | ⟨c, cs⟩
    · exfalso
      apply hlast
      cases lastSeg with
      | mk d =>
        have hd2 : d = [] := hd
        rw [hd2]
    · exact ⟨c, cs, rfl⟩
  have hstem : file_stem lastSeg = some (String.mk (c :: dropAfterLastDot cs)) := by
    simp [file_stem, hdata]
  have hstemne : ¬ String.mk (c :: dropAfterLastDot cs) = "" :=
    string_mk_cons_ne_empty _ _
  have key : create_breadcrumb canon file_path base_path =
      init ++ [String.mk (c :: dropAfterLastDot cs)] := by
    unfold create_breadcrumb
    simp only [hb, hf, Option.getD_some]
    rw [List.drop_left, filterMap_componentName_map_normal]
    exact stripExtLast_concat init lastSeg _ hstem
  refine ⟨String.mk (c :: dropAfterLastDot cs), hstem, hstemne, key, ?_, ?_⟩
  · intro s hs
    rw [key] at hs
    rcases List.mem_append.mp hs with h1 | h2
    · exact hne s (List.mem_append_left _ h1)
    · have hs2 : s = String.mk (c :: dropAfterLastDot cs) := by
        simpa using h2
      rw [hs2]
      exact hstemne
  · intro slug
    unfold PagePathTemplateData.ofParams
    simp only [key, List.dropLast_concat]

/-- C2 witness: under a concrete canonicalizer, the file "f" (canonical
/srv/docs/about.gmi) inside the base "b" (canonical /srv) yields the
breadcrumb segments docs, about, and the page-path parent_url "docs". -/
theorem create_breadcrumb_descendant_witness :
    (canonW [Component.normal "b"] =
      some [Component.rootDir, Component.normal "srv"] ∧
    canonW [Component.normal "f"] =
      some ([Component.rootDir, Component.normal "srv"] ++
        (["docs"] ++ ["about.gmi"]).map Component.normal) ∧
    (∀ s ∈ ["docs"] ++ ["about.gmi"], ¬ s = "")) ∧
    (∃ stem, file_stem "about.gmi" = some stem ∧ ¬ stem = "" ∧
      create_breadcrumb canonW [Component.normal "f"]
        [Component.normal "b"] = ["docs"] ++ [stem] ∧
      (∀ s ∈ create_breadcrumb canonW [Component.normal "f"]
        [Component.normal "b"], ¬ s = "") ∧
      (∀ slug, PagePathTemplateData.ofParams canonW
          ⟨[Component.normal "b"], [Component.normal "f"], slug⟩ =
        ⟨String.intercalate "/" ["docs"], slug⟩)) :=
  ⟨⟨rfl, rfl, by decide⟩,
    create_breadcrumb_descendant canonW [Component.normal "f"]
      [Component.normal "b"] [Component.rootDir, Component.normal "srv"]
      ["docs"] "about.gmi" rfl rfl (by decide)⟩

/-- C9 counterexample: a successful page render whose first-pass output is
"PRE" leaves the entry's body at its original value "BODY": body is not
reassigned to the first-pass output, contradicting the claimed in-place
mutation. -/
theorem render_page_body_not_reassigned_cex :
    (render_page demoEngine (fun _ => none) demoEntry demoPages [baseTeraPath]
      demoOutput demoFS).result = Except.ok () ∧
    demoEngine.render
      (render_page demoEngine (fun _ => none) demoEntry demoPages
        [baseTeraPath] demoOutput demoFS).tera "page"
      (page_context demoEntry demoPages
        (create_breadcrumb (fun _ => none) demoOutput demoPages.pages_dir)) =
      Except.ok "PRE" ∧
    (render_page demoEngine (fun _ => none) demoEntry demoPages [baseTeraPath]
      demoOutput demoFS).entry.body = "BODY" ∧
    ¬ (("BODY" : String) = "PRE") :=
  ⟨rfl, rfl, rfl, by decide⟩

/-- C9 amended: render_page performs no post-construction mutation of the
EntryTemplateData at all; every field, body included, is unchanged by the
render, the first-pass output living only in the context key "content". -/
theorem render_page_entry_unchanged
    (eng : TemplateEngine) (canon : FilePath → Option FilePath)
    (entry : EntryTemplateData) (pages_data : PagesTemplateData)
    (templates : List FilePath) (output : FilePath) (fs : FS) :
    (render_page eng canon entry pages_data templates output fs).entry =
      entry := by
  unfold render_page
  dsimp only
  repeat first
  | rfl
  | split

/-- C4 counterexample: with an engine whose every operation succeeds and an
output path whose parent directory does not exist, render_post fails at
file creation while render_index succeeds on the very same path, because
render_post creates no parent directories. -/
theorem render_post_missing_parent_cex :
    (render_post alwaysOkEngine demoEntry demoFeed postTeraPath deepOutput
      demoFS).1 =
      Except.error (RenderErr.wrapped "failed creating gemlog post page file") ∧
    (render_index alwaysOkEngine demoFeed postTeraPath deepOutput demoFS).1 =
      Except.ok () :=
  ⟨rfl, rfl⟩

/-- C4 amended: render_page, render_index and render_feed create the
output file's parent directories before creating the output file, so for
these three a render to a path whose parent directories do not yet exist
succeeds; render_post performs no directory creation and fails at file
creation in that situation. -/
theorem three_renderers_create_parent_dirs
    (eng : TemplateEngine) (canon : FilePath → Option FilePath)
    (entry : EntryTemplateData) (feed : FeedTemplateData)
    (pages_data : PagesTemplateData) (templates : List FilePath)
    (tpl : FilePath) (feedTmpl : String) (output : FilePath) (fs : FS)
    (parent_dir : FilePath) (src rendered : String)
    (hfind : ∀ t ∈ templates, ¬ (path_file_stem t).getD "" = "page")
    (hload : ∀ p, eng.loadFile p = Except.ok src)
    (hraw : ∀ s, eng.checkRaw s = none)
    (hpar : parentPath output = some parent_dir)
    (hrender : ∀ ts n c, eng.render ts n c = Except.ok rendered) :
    (render_page eng canon entry pages_data templates output fs).result =
      Except.ok () ∧
    (render_index eng feed tpl output fs).1 = Except.ok () ∧
    (render_feed eng feed feedTmpl output fs).1 = Except.ok () := by
  refine ⟨?_, ?_, ?_⟩
  · have hfind2 := find?_none_of_no_page templates hfind
    rcases hadd : add_template_files eng [] (templates.map create_named_template)
        with ⟨tera1, err?⟩
    have herr : err? = none := by
      have h0 := add_template_files_no_error eng src hload
        (templates.map create_named_template) []
      rw [hadd] at h0
      exact h0
    subst herr
    simp [render_page, hfind2, hadd, hraw, hpar,
      fileCreate_createDirAll fs output parent_dir hpar, hrender]
  · simp [render_index, hload, hpar,
      fileCreate_createDirAll fs output parent_dir hpar, hrender]
  · simp [render_feed, hraw, hpar,
      fileCreate_createDirAll fs output parent_dir hpar, hrender]

/-- C4 amended witness: with a missing parent directory, a concrete page
render, index render and feed render all succeed. -/
theorem three_renderers_create_parent_dirs_witness :
    (render_page alwaysOkEngine (fun _ => none) demoEntry demoPages
      [baseTeraPath] deepOutput demoFS).result = Except.ok () ∧
    (render_index alwaysOkEngine demoFeed postTeraPath deepOutput demoFS).1 =
      Except.ok () ∧
    (render_feed alwaysOkEngine demoFeed "FEEDTMPL" deepOutput demoFS).1 =
      Except.ok () :=
  three_renderers_create_parent_dirs alwaysOkEngine (fun _ => none) demoEntry
    demoFeed demoPages [baseTeraPath] postTeraPath "FEEDTMPL" deepOutput demoFS
    [Component.rootDir, Component.normal "gemlog"] "SRC" "OUT"
    (by decide) (fun _ => rfl) (fun _ => rfl) rfl (fun _ _ _ => rfl)

/-- C5 counterexample: render_post hit by a two-level chained engine error
reports only the top-level message "outer" as the reason, not the joined
cause chain "outer - inner" the claim asserts for every renderer. -/
theorem error_chain_flattening_cex :
    (render_post chainFailEngine demoEntry demoFeed postTeraPath shallowOutput
      demoFS).1 =
      Except.error (RenderErr.gempost
        (GempostError.invalidPostPageTemplate shallowOutput "outer")) ∧
    String.intercalate " - " (chainMessages chainedErr) = "outer - inner" ∧
    ¬ (("outer" : String) = "outer - inner") :=
  ⟨rfl, rfl, by decide⟩

/-- C5 amended: cause-chain flattening joined by " - " and prefixed by the
entry URL applies exactly to render_page's two render passes; render_post
failures carry only the error's top-level message. -/
theorem render_page_flattens_error_chain
    (eng : TemplateEngine) (canon : FilePath → Option FilePath)
    (entry : EntryTemplateData) (pages_data : PagesTemplateData)
    (templates : List FilePath) (output : FilePath) (fs : FS)
    (tera1 : List (String × String)) (parent_dir : FilePath)
    (hfind : ∀ t ∈ templates, ¬ (path_file_stem t).getD "" = "page")
    (hadd : add_template_files eng [] (templates.map create_named_template) =
      (tera1, none))
    (hraw : eng.checkRaw entry.body = none)
    (hpar : parentPath output = some parent_dir) :
    (∀ err, eng.render (tera1 ++ [("page", entry.body)]) "page"
        (page_context entry pages_data
          (create_breadcrumb canon output pages_data.pages_dir)) =
        Except.error err →
      (render_page eng canon entry pages_data templates output fs).result =
        Except.error (RenderErr.gempost (GempostError.invalidPageTemplate
          output (entry.url ++ ": " ++
            String.intercalate " - " (chainMessages err))))) ∧
    (∀ pre err,
      eng.render (tera1 ++ [("page", entry.body)]) "page"
        (page_context entry pages_data
          (create_breadcrumb canon output pages_data.pages_dir)) =
        Except.ok pre →
      eng.render (tera1 ++ [("page", entry.body)]) (entry.layout.getD "base")
        ((page_context entry pages_data
          (create_breadcrumb canon output pages_data.pages_dir)).insert
          "content" (Value.str pre)) = Except.error err →
      (render_page eng canon entry pages_data templates output fs).result =
        Except.error (RenderErr.gempost (GempostError.invalidPageTemplate
          output (entry.url ++ ": " ++
            String.intercalate " - " (chainMessages err))))) ∧
    (∀ (eng2 : TemplateEngine) (entry2 : EntryTemplateData)
        (feed : FeedTemplateData) (tpl output2 : FilePath) (fs2 fs3 : FS)
        (src : String) (err : RError),
      eng2.loadFile tpl = Except.ok src →
      fileCreate fs2 output2 = Except.ok fs3 →
      eng2.render [("post", src)] "post"
        ((Ctx.empty.insert "entry" (Value.entryVal entry2)).insert "feed"
          (Value.feedVal feed)) = Except.error err →
      (render_post eng2 entry2 feed tpl output2 fs2).1 =
        Except.error (RenderErr.gempost
          (GempostError.invalidPostPageTemplate output2 err.display))) := by
  have hfind2 := find?_none_of_no_page templates hfind
  refine ⟨?_, ?_, ?_⟩
  · intro err hr1
    simp [render_page, hfind2, hadd, hraw, hpar,
      fileCreate_createDirAll fs output parent_dir hpar, hr1, to_error]
  · intro pre err hr1 hr2
    simp [render_page, hfind2, hadd, hraw, hpar,
      fileCreate_createDirAll fs output parent_dir hpar, hr1, hr2, to_error]
  · intro eng2 entry2 feed tpl output2 fs2 fs3 src err hload hfc hrend
    simp [render_post, hload, hfc, hrend]

/-- C5 amended witness: a concrete page render failing its first pass with
the chained error reports "url: outer - inner", while a concrete post
render failing with the same error reports only its top message. -/
theorem render_page_flattens_error_chain_witness :
    (add_template_files chainFailEngine []
        ([baseTeraPath].map create_named_template) =
      ([("base", "SRC")], none) ∧
      chainFailEngine.render ([("base", "SRC")] ++ [("page", demoEntry.body)])
        "page" (page_context demoEntry demoPages
          (create_breadcrumb (fun _ => none) demoOutput demoPages.pages_dir)) =
        Except.error chainedErr) ∧
    (render_page chainFailEngine (fun _ => none) demoEntry demoPages
      [baseTeraPath] demoOutput demoFS).result =
      Except.error (RenderErr.gempost (GempostError.invalidPageTemplate
        demoOutput (demoEntry.url ++ ": " ++
          String.intercalate " - " (chainMessages chainedErr)))) ∧
    (render_post chainFailEngine demoEntry demoFeed postTeraPath shallowOutput
      demoFS).1 =
      Except.error (RenderErr.gempost (GempostError.invalidPostPageTemplate
        shallowOutput chainedErr.display)) :=
  ⟨⟨rfl, rfl⟩,
    (render_page_flattens_error_chain chainFailEngine (fun _ => none) demoEntry
      demoPages [baseTeraPath] demoOutput demoFS [("base", "SRC")]
      [Component.rootDir, Component.normal "cap"]
      (by decide) rfl rfl rfl).1 chainedErr rfl,
    (render_page_flattens_error_chain chainFailEngine (fun _ => none) demoEntry
      demoPages [baseTeraPath] demoOutput demoFS [("base", "SRC")]
      [Component.rootDir, Component.normal "cap"]
      (by decide) rfl rfl rfl).2.2 chainFailEngine demoEntry demoFeed
      postTeraPath shallowOutput demoFS ⟨[], [(shallowOutput, "")]⟩ "SRC"
      chainedErr rfl rfl rfl⟩

/-- C10: in all four renderers the destination file is created, truncated
to empty, before the render is attempted, so a render-time failure leaves
a created empty destination file behind instead of the pre-existing
content. -/
theorem renderers_truncate_before_render
    (eng : TemplateEngine) (canon : FilePath → Option FilePath)
    (entry : EntryTemplateData) (feed : FeedTemplateData)
    (pages_data : PagesTemplateData) (templates : List FilePath)
    (tpl : FilePath) (feedTmpl : String) (output : FilePath) (fs : FS)
    (parent_dir : FilePath) (src : String) (err : RError) (c0 : String)
    (hfind : ∀ t ∈ templates, ¬ (path_file_stem t).getD "" = "page")
    (hload : ∀ p, eng.loadFile p = Except.ok src)
    (hraw : ∀ s, eng.checkRaw s = none)
    (hrender : ∀ ts n c, eng.render ts n c = Except.error err)
    (hpar : parentPath output = some parent_dir)
    (hdir : dirExists fs parent_dir = true)
    (hprev : getFile fs output = some c0)
    (hc0 : ¬ c0 = "") :
    ((render_post eng entry feed tpl output fs).1 =
        Except.error (RenderErr.gempost
          (GempostError.invalidPostPageTemplate output err.display)) ∧
      getFile (render_post eng entry feed tpl output fs).2 output = some "" ∧
      ¬ getFile (render_post eng entry feed tpl output fs).2 output =
        some c0) ∧
    ((render_page eng canon entry pages_data templates output fs).result =
        Except.error (to_error output entry.url err) ∧
      getFile (render_page eng canon entry pages_data templates output fs).fs
        output = some "" ∧
      ¬ getFile (render_page eng canon entry pages_data templates output
        fs).fs output = some c0) ∧
    ((render_index eng feed tpl output fs).1 =
        Except.error (RenderErr.gempost
          (GempostError.invalidIndexPageTemplate err.display)) ∧
      getFile (render_index eng feed tpl output fs).2 output = some "" ∧
      ¬ getFile (render_index eng feed tpl output fs).2 output = some c0) ∧
    ((render_feed eng feed feedTmpl output fs).1 =
        Except.error (RenderErr.wrapped "failed generating the Atom feed") ∧
      getFile (render_feed eng feed feedTmpl output fs).2 output = some "" ∧
      ¬ getFile (render_feed eng feed feedTmpl output fs).2 output =
        some c0) := by
  have hfc : fileCreate fs output =
      Except.ok ⟨fs.dirs, (output, "") :: fs.files⟩ := by
    simp [fileCreate, hpar, hdir]
  have hfind2 := find?_none_of_no_page templates hfind
  rcases hadd : add_template_files eng [] (templates.map create_named_template)
      with ⟨tera1, err?⟩
  have herr : err? = none := by
    have h0 := add_template_files_no_error eng src hload
      (templates.map create_named_template) []
    rw [hadd] at h0
    exact h0
  subst herr
  have hpost : getFile (render_post eng entry feed tpl output fs).2 output =
      some "" := by
    simp [render_post, hload, hfc, hrender, getFile, lookupFile]
  have hpage : getFile
      (render_page eng canon entry pages_data templates output fs).fs output =
      some "" := by
    simp [render_page, hfind2, hadd, hraw, hpar,
      fileCreate_createDirAll fs output parent_dir hpar, hrender,
      getFile, lookupFile]
  have hindex : getFile (render_index eng feed tpl output fs).2 output =
      some "" := by
    simp [render_index, hload, hpar,
      fileCreate_createDirAll fs output parent_dir hpar, hrender,
      getFile, lookupFile]
  have hfeed : getFile (render_feed eng feed feedTmpl output fs).2 output =
      some "" := by
    simp [render_feed, hraw, hpar,
      fileCreate_createDirAll fs output parent_dir hpar, hrender,
      getFile, lookupFile]
  refine ⟨⟨?_, hpost, ?_⟩, ⟨?_, hpage, ?_⟩, ⟨?_, hindex, ?_⟩, ⟨?_, hfeed, ?_⟩⟩
  · simp [render_post, hload, hfc, hrender]
  · rw [hpost]
    intro hx
    exact hc0 (Option.some.inj hx).symm
  · simp [render_page, hfind2, hadd, hraw, hpar,
      fileCreate_createDirAll fs output parent_dir hpar, hrender]
  · rw [hpage]
    intro hx
    exact hc0 (Option.some.inj hx).symm
  · simp [render_index, hload, hpar,
      fileCreate_createDirAll fs output parent_dir hpar, hrender]
  · rw [hindex]
    intro hx
    exact hc0 (Option.some.inj hx).symm
  · simp [render_feed, hraw, hpar,
      fileCreate_createDirAll fs output parent_dir hpar, hrender]
  · rw [hfeed]
    intro hx
    exact hc0 (Option.some.inj hx).symm

/-- C10 witness: with pre-existing content "OLD" at the output path and an
engine whose renders all fail, each of the four renderers errors and
leaves the output file created and empty. -/
theorem renderers_truncate_before_render_witness :
    getFile fsWithOld shallowOutput = some "OLD" ∧
    (((render_post chainFailEngine demoEntry demoFeed postTeraPath
        shallowOutput fsWithOld).1 =
        Except.error (RenderErr.gempost (GempostError.invalidPostPageTemplate
          shallowOutput chainedErr.display)) ∧
      getFile (render_post chainFailEngine demoEntry demoFeed postTeraPath
        shallowOutput fsWithOld).2 shallowOutput = some "" ∧
      ¬ getFile (render_post chainFailEngine demoEntry demoFeed postTeraPath
        shallowOutput fsWithOld).2 shallowOutput = some "OLD") ∧
    ((render_page chainFailEngine (fun _ => none) demoEntry demoPages
        [baseTeraPath] shallowOutput fsWithOld).result =
        Except.error (to_error shallowOutput demoEntry.url chainedErr) ∧
      getFile (render_page chainFailEngine (fun _ => none) demoEntry demoPages
        [baseTeraPath] shallowOutput fsWithOld).fs shallowOutput = some "" ∧
      ¬ getFile (render_page chainFailEngine (fun _ => none) demoEntry
        demoPages [baseTeraPath] shallowOutput fsWithOld).fs shallowOutput =
        some "OLD") ∧
    ((render_index chainFailEngine demoFeed postTeraPath shallowOutput
        fsWithOld).1 =
        Except.error (RenderErr.gempost (GempostError.invalidIndexPageTemplate
          chainedErr.display)) ∧
      getFile (render_index chainFailEngine demoFeed postTeraPath
        shallowOutput fsWithOld).2 shallowOutput = some "" ∧
      ¬ getFile (render_index chainFailEngine demoFeed postTeraPath
        shallowOutput fsWithOld).2 shallowOutput = some "OLD") ∧
    ((render_feed chainFailEngine demoFeed "FEEDTMPL" shallowOutput
        fsWithOld).1 =
        Except.error (RenderErr.wrapped "failed generating the Atom feed") ∧
      getFile (render_feed chainFailEngine demoFeed "FEEDTMPL" shallowOutput
        fsWithOld).2 shallowOutput = some "" ∧
      ¬ getFile (render_feed chainFailEngine demoFeed "FEEDTMPL"
        shallowOutput fsWithOld).2 shallowOutput = some "OLD")) :=
  ⟨rfl,
    renderers_truncate_before_render chainFailEngine (fun _ => none) demoEntry
      demoFeed demoPages [baseTeraPath] postTeraPath "FEEDTMPL" shallowOutput
      fsWithOld [Component.rootDir] "SRC" chainedErr "OLD"
      (by decide) (fun _ => rfl) (fun _ => rfl) (fun _ _ _ => rfl) rfl rfl rfl
      (by decide)⟩

end Gempost
